import Mathlib

/-!
Verification of the http-chat-client repository against its specification.

The repository contains two variants of the client in http-chat-client.go
(the first using the osm logger, the second using the standard log package)
and a third packaged variant. The claims cite the concatenated file, so both
variants of the cited functions are embedded here; definitions suffixed V2
come from the second variant (lines 268 onward of http-chat-client.go).

Modelling conventions:
  - Go time.Time values are represented by their printed form (the result of
    the String method, which is what the %s verb renders); the zero value of
    time.Time prints as "0001-01-01 00:00:00 +0000 UTC".
  - Network interaction is represented by an explicit result datum handed to
    the embedded function: a transport error (in which case the http.Response
    pointer is nil), or a response carrying a status code and, for GETs, the
    result of the JSON decode of the body.
  - Where the Go code dereferences the nil response after a transport error
    (the deferred resp.Body.Close() call), the embedding returns a crashed
    outcome: control never reaches the normal return.
-/

namespace HttpChat

/-- Printed form of a Go time.Time value (its String method, used by %s). -/
structure GoTime where
  timeRepr : String
deriving DecidableEq, Repr

/-- The zero value of time.Time as it prints. -/
def zeroGoTime : GoTime := ⟨"0001-01-01 00:00:00 +0000 UTC"⟩

/-- Message struct of the source: username, message, timeSent. -/
structure Message where
  username : String
  message : String
  timeSent : GoTime
deriving DecidableEq, Repr

/-- User struct of the source: username, lastPing. -/
structure User where
  username : String
  lastPing : GoTime
deriving DecidableEq, Repr

/-- Ping struct of the source: username, timeSent. -/
structure Ping where
  username : String
  timeSent : GoTime
deriving DecidableEq, Repr

/-- ChatConfig struct of the source. -/
structure ChatConfig where
  chatServerFQDN : String
  chatServerPort : Int
  webServerPortNumber : Int
deriving DecidableEq, Repr

def defaultHTTPChatServer : String := "chat.server.net"

def defaultHTTPChatPort : Int := 8080

def defaultWebServerPortNumber : Int := 99

def endPointSendMessage : String := "/send-message"

def endPointGetMessages : String := "/get-messages"

def endPointGetUsers : String := "/get-users"

def formKeyMessage : String := "message"

/-! ## Messages view (first variant, handlerGetMessages, lines 111-123) -/

/-- One rendered message line: fmt.Sprintf with verb string (%d)[%s] %s
applied to the index, the username and the message body. -/
def formatMessageEntry (idx : Nat) (msg : Message) : String :=
  "(" ++ toString idx ++ ")[" ++ msg.username ++ "] " ++ msg.message

/-- The loop of handlerGetMessages: range over the fetched list, appending
one formatted line per message, with the running index starting at the
given value (0 at the call site, as Go range indices start at 0). -/
def messageEntries : Nat → List Message → List String
  | _, [] => []
  | idx, msg :: rest => formatMessageEntry idx msg :: messageEntries (idx + 1) rest

/-- The HTML before the joined message lines in handlerGetMessages. -/
def messagesViewHead : String :=
  "<!doctype html><html itemscope=\"\" itemtype=\"http://schema.org/WebPage\" lang=\"en\">\n\t<head><title>smirc: messages</title><meta http-equiv=\"refresh\" content=\"1\"></head>\n    <body>"

/-- The HTML written by handlerGetMessages for a fetched message list:
head, the lines joined by the break tag, then the closing tags. -/
def handlerGetMessages (msgs : List Message) : String :=
  messagesViewHead ++ String.intercalate "<br/>" (messageEntries 0 msgs) ++ "</body></html>"

theorem messageEntries_length (s : Nat) (msgs : List Message) :
    (messageEntries s msgs).length = msgs.length := by
  induction msgs generalizing s with
  | nil => rfl
  | cons m rest ih => simp [messageEntries, ih]

theorem messageEntries_getElem? (s i : Nat) (msgs : List Message) (h : i < msgs.length) :
    (messageEntries s msgs)[i]? = some (formatMessageEntry (s + i) msgs[i]) := by
  induction msgs generalizing s i with
  | nil => simp at h
  | cons m rest ih =>
    cases i with
    | zero => simp [messageEntries]
    | succ j =>
      have hj : j < rest.length := by simpa using h
      have := ih (s + 1) j hj
      simpa [messageEntries, Nat.add_assoc, Nat.add_comm 1 j] using this

/-- C1: for every message list returned by the fetch, handlerGetMessages
renders exactly one line per entry, in the order received, the i-th line
being the string (i)[username] message with 0-based index i, and the page
body is those lines joined by the HTML line break. -/
theorem messagesView_renders_in_order (msgs : List Message) (i : Nat) (h : i < msgs.length) :
    handlerGetMessages msgs
        = messagesViewHead ++ String.intercalate "<br/>" (messageEntries 0 msgs) ++ "</body></html>"
      ∧ (messageEntries 0 msgs).length = msgs.length
      ∧ (messageEntries 0 msgs)[i]?
          = some ("(" ++ toString i ++ ")[" ++ msgs[i].username ++ "] " ++ msgs[i].message) := by
  refine ⟨rfl, messageEntries_length 0 msgs, ?_⟩
  simpa [formatMessageEntry] using messageEntries_getElem? 0 i msgs h

/-- Concrete two-message list used to witness the rendering theorems. -/
def sampleMessages : List Message :=
  [⟨"alice", "hi", zeroGoTime⟩, ⟨"bob", "yo", zeroGoTime⟩]

/-- Witness for C1 at a concrete two-element list and index 1. -/
theorem messagesView_renders_in_order_witness :
    1 < sampleMessages.length
      ∧ (handlerGetMessages sampleMessages
           = messagesViewHead ++ String.intercalate "<br/>" (messageEntries 0 sampleMessages)
               ++ "</body></html>"
         ∧ (messageEntries 0 sampleMessages).length = sampleMessages.length
         ∧ (messageEntries 0 sampleMessages)[1]?
             = some ("(" ++ toString 1 ++ ")[" ++ sampleMessages[1].username ++ "] "
                 ++ sampleMessages[1].message)) :=
  ⟨by decide, messagesView_renders_in_order sampleMessages 1 (by decide)⟩

/-! ## Users view (first variant, handlerGetUsers, lines 125-137) -/

/-- One rendered user line: fmt.Sprintf with verb string (%d)[%s] %s applied
to the index, the lastPing time (rendered by %s via its String method) and
the username. -/
def formatUserEntry (idx : Nat) (user : User) : String :=
  "(" ++ toString idx ++ ")[" ++ user.lastPing.timeRepr ++ "] " ++ user.username

/-- The loop of handlerGetUsers: range over the fetched list, appending one
formatted line per user. -/
def userEntries : Nat → List User → List String
  | _, [] => []
  | idx, user :: rest => formatUserEntry idx user :: userEntries (idx + 1) rest

/-- The HTML before the joined user lines in handlerGetUsers. -/
def usersViewHead : String :=
  "<!doctype html><html itemscope=\"\" itemtype=\"http://schema.org/WebPage\" lang=\"en\">\n\t<head><title>smirc: users</title><meta http-equiv=\"refresh\" content=\"5\"></head>\n    <body><strong>Users:</strong><br/> "

/-- The HTML written by handlerGetUsers for a fetched user list. -/
def handlerGetUsers (users : List User) : String :=
  usersViewHead ++ String.intercalate "<br/>" (userEntries 0 users) ++ "</body></html>"

theorem userEntries_length (s : Nat) (users : List User) :
    (userEntries s users).length = users.length := by
  induction users generalizing s with
  | nil => rfl
  | cons u rest ih => simp [userEntries, ih]

theorem userEntries_getElem? (s i : Nat) (users : List User) (h : i < users.length) :
    (userEntries s users)[i]? = some (formatUserEntry (s + i) users[i]) := by
  induction users generalizing s i with
  | nil => simp at h
  | cons u rest ih =>
    cases i with
    | zero => simp [userEntries]
    | succ j =>
      have hj : j < rest.length := by simpa using h
      have := ih (s + 1) j hj
      simpa [userEntries, Nat.add_assoc, Nat.add_comm 1 j] using this

set_option maxRecDepth 4000 in
/-- C7 counterexample: the claimed entry format "(index) identity" does not
match the code, which renders "(index)[lastPing] identity". At the concrete
one-user list the rendered entry differs from the claimed one and the whole
page differs from the page the claimed format would produce. -/
theorem usersView_format_counterexample :
    userEntries 0 [⟨"bob", ⟨"2024-05-01 10:00:00 +0000 UTC"⟩⟩] ≠ ["(0) bob"]
      ∧ handlerGetUsers [⟨"bob", ⟨"2024-05-01 10:00:00 +0000 UTC"⟩⟩]
          ≠ usersViewHead ++ String.intercalate "<br/>" ["(0) bob"] ++ "</body></html>" := by
  exact ⟨by decide, by decide⟩

/-- C7 amended: for every user list returned by the fetch, handlerGetUsers
renders exactly one line per user, in the order received, the i-th line
being the string (i)[lastPing] username with 0-based index i, joined by the
HTML line break. -/
theorem usersView_renders_in_order (users : List User) (i : Nat) (h : i < users.length) :
    handlerGetUsers users
        = usersViewHead ++ String.intercalate "<br/>" (userEntries 0 users) ++ "</body></html>"
      ∧ (userEntries 0 users).length = users.length
      ∧ (userEntries 0 users)[i]?
          = some ("(" ++ toString i ++ ")[" ++ users[i].lastPing.timeRepr ++ "] "
              ++ users[i].username) := by
  refine ⟨rfl, userEntries_length 0 users, ?_⟩
  simpa [formatUserEntry] using userEntries_getElem? 0 i users h

/-- Concrete two-user list used to witness the user rendering theorem. -/
def sampleUsers : List User :=
  [⟨"alice", ⟨"2024-05-01 10:00:00 +0000 UTC"⟩⟩, ⟨"bob", ⟨"2024-05-01 10:00:03 +0000 UTC"⟩⟩]

/-- Witness for the amended C7 at a concrete two-element list and index 1. -/
theorem usersView_renders_in_order_witness :
    1 < sampleUsers.length
      ∧ (handlerGetUsers sampleUsers
           = usersViewHead ++ String.intercalate "<br/>" (userEntries 0 sampleUsers)
               ++ "</body></html>"
         ∧ (userEntries 0 sampleUsers).length = sampleUsers.length
         ∧ (userEntries 0 sampleUsers)[1]?
             = some ("(" ++ toString 1 ++ ")[" ++ sampleUsers[1].lastPing.timeRepr ++ "] "
                 ++ sampleUsers[1].username)) :=
  ⟨by decide, usersView_renders_in_order sampleUsers 1 (by decide)⟩

/-! ## Messages view, second variant (handlerGetMessagesForChannel,
lines 370-382 of the concatenated file), transcribed independently. -/

/-- The Sprintf line of the second variant, identical verb string. -/
def formatMessageEntryV2 (idx : Nat) (msg : Message) : String :=
  "(" ++ toString idx ++ ")[" ++ msg.username ++ "] " ++ msg.message

/-- The loop of handlerGetMessagesForChannel. -/
def messageEntriesV2 : Nat → List Message → List String
  | _, [] => []
  | idx, msg :: rest => formatMessageEntryV2 idx msg :: messageEntriesV2 (idx + 1) rest

/-- The HTML before the joined lines in handlerGetMessagesForChannel. -/
def messagesViewHeadV2 : String :=
  "<!doctype html><html itemscope=\"\" itemtype=\"http://schema.org/WebPage\" lang=\"en\">\n\t<head><title>smirc: messages</title><meta http-equiv=\"refresh\" content=\"1\"></head>\n    <body>"

/-- The HTML written by handlerGetMessagesForChannel. -/
def handlerGetMessagesForChannel (msgs : List Message) : String :=
  messagesViewHeadV2 ++ String.intercalate "<br/>" (messageEntriesV2 0 msgs) ++ "</body></html>"

theorem messageEntriesV2_eq (s : Nat) (msgs : List Message) :
    messageEntriesV2 s msgs = messageEntries s msgs := by
  induction msgs generalizing s with
  | nil => rfl
  | cons m rest ih =>
    simp [messageEntriesV2, messageEntries, formatMessageEntryV2, formatMessageEntry, ih]

/-- C10: the two source variants of the messages view render
character-for-character identical HTML for every fetched message list. -/
theorem messagesView_variants_agree (msgs : List Message) :
    handlerGetMessages msgs = handlerGetMessagesForChannel msgs := by
  unfold handlerGetMessages handlerGetMessagesForChannel
  rw [messageEntriesV2_eq]
  rfl

/-! ## Remote gateway calls (first variant)

Each embedded call takes the result of the network interaction as an
explicit argument. A transport error leaves the response pointer nil; the
first variant logs such an error and then executes the deferred
resp.Body.Close() on the nil pointer, so control never reaches the normal
return — the crashed outcome. -/

/-- Result of the JSON decode of a GET /messages response body. On a decode
error the Go slice passed to Decode holds whatever elements the decoder had
already filled in, and the code returns that slice. -/
inductive MsgDecodeResult where
  | ok (msgs : List Message)
  | decodeFailed (sofar : List Message)
deriving DecidableEq, Repr

/-- Result of an httpClient.Get call: transport error (nil response) or a
response with a status code and a body. -/
inductive GetMsgsCallResult where
  | netError
  | response (statusCode : Nat) (body : MsgDecodeResult)
deriving DecidableEq, Repr

/-- Outcome of getMessages: either the function crashes on the nil response
or it returns a message list. -/
inductive GetMessagesOutcome where
  | crashed
  | returned (msgs : List Message)
deriving DecidableEq, Repr

/-- getMessages, first variant (lines 172-192): on a transport error the
code logs and falls through to the deferred close of the nil response body;
a non-200 status is only logged, after which the body is decoded and
returned anyway; a decode error is only logged and whatever the decoder
left in the slice is returned. -/
def getMessages : GetMsgsCallResult → GetMessagesOutcome
  | .netError => .crashed
  | .response _ (.ok msgs) => .returned msgs
  | .response _ (.decodeFailed sofar) => .returned sofar

/-- C2: the code contradicts the claim. On a transport error (backend
unreachable) getMessages crashes on a nil response instead of returning an
empty list, and on a non-200 status it still decodes and returns the body
(here a non-empty list) instead of an empty one. -/
theorem getMessages_failure_behavior :
    getMessages GetMsgsCallResult.netError = GetMessagesOutcome.crashed
      ∧ getMessages (GetMsgsCallResult.response 500
            (MsgDecodeResult.ok [⟨"a", "b", zeroGoTime⟩]))
          = GetMessagesOutcome.returned [⟨"a", "b", zeroGoTime⟩]
      ∧ getMessages (GetMsgsCallResult.response 500
            (MsgDecodeResult.ok [⟨"a", "b", zeroGoTime⟩]))
          ≠ GetMessagesOutcome.returned [] := by
  refine ⟨rfl, rfl, by decide⟩

/-! ## Posting a message (first variant, sendMessage, lines 156-170) -/

/-- Result of an httpClient.Post call: transport error (nil response) or a
response with a status code. -/
inductive PostCallResult where
  | netError
  | response (statusCode : Nat)
deriving DecidableEq, Repr

/-- Outcome of sendMessage: crash on the nil response, or a normal return
after having posted the given body. -/
inductive SendMessageOutcome where
  | crashed
  | completed (posted : Message)
deriving DecidableEq, Repr

/-- The body handed to json.Marshal in sendMessage: the Message composite
literal sets only Username (from envVarUserName) and Message; TimeSent is
left at the time.Time zero value. -/
def sendMessageBody (userName message : String) : Message :=
  { username := userName, message := message, timeSent := zeroGoTime }

/-- sendMessage, first variant: marshals the body and posts it once. On a
transport error the code logs and falls through to the deferred close of
the nil response body; a non-201 status is only logged and the function
returns normally. -/
def sendMessage (userName message : String) : PostCallResult → SendMessageOutcome
  | .netError => .crashed
  | .response _ => .completed (sendMessageBody userName message)

/-- C4 counterexample: the timeSent field of the posted body is the Go zero
time, so it differs from any actual send time (here a concrete clock value
standing for the moment of the send). -/
theorem sendMessageBody_timeSent_counterexample :
    (sendMessageBody "user1" "hello").timeSent = zeroGoTime
      ∧ (sendMessageBody "user1" "hello").timeSent
          ≠ GoTime.mk "2025-06-01 12:00:00 +0000 UTC" := by
  exact ⟨rfl, by decide⟩

/-- C4 amended: every call of sendMessage serializes exactly one outbound
post whose username equals the configured local identity and whose message
equals the submitted text verbatim, while timeSent is the Go zero
timestamp (the client never sets it), not the time of sending. -/
theorem sendMessage_posts_identity_and_text (userName text : String) (code : Nat) :
    sendMessage userName text (PostCallResult.response code)
        = SendMessageOutcome.completed ⟨userName, text, zeroGoTime⟩
      ∧ (sendMessageBody userName text).username = userName
      ∧ (sendMessageBody userName text).message = text
      ∧ (sendMessageBody userName text).timeSent = zeroGoTime :=
  ⟨rfl, rfl, rfl, rfl⟩

/-! ## The send-message handler (first variant, lines 100-109) -/

/-- Result of r.ParseForm plus the parsed key-value pairs. -/
inductive FormParse where
  | parseFailed
  | parsed (fields : List (String × String))
deriving DecidableEq, Repr

/-- url.Values.Get: the first value associated with the key, the empty
string when the key is absent. -/
def formGet (fields : List (String × String)) (key : String) : String :=
  match fields.find? (fun kv => kv.1 == key) with
  | some kv => kv.2
  | none => ""

/-- Outcome of handlerSendMessage: a 302 redirect to the index route,
recording the posted body when a post completed, or a crash propagated from
sendMessage. -/
inductive SendHandlerOutcome where
  | redirectedToIndex (posted : Option Message)
  | crashed
deriving DecidableEq, Repr

/-- handlerSendMessage, first variant: a form-parse error logs and
redirects to "/"; otherwise the "message" field is extracted (empty when
absent), sendMessage is called with it, and the handler redirects to "/"
with status 302. -/
def handlerSendMessage (userName : String) (form : FormParse) (net : PostCallResult) :
    SendHandlerOutcome :=
  match form with
  | .parseFailed => .redirectedToIndex none
  | .parsed fields =>
    match sendMessage userName (formGet fields formKeyMessage) net with
    | .crashed => .crashed
    | .completed m => .redirectedToIndex (some m)

/-- C3: the code contradicts the claim on the timeout case. When the post
suffers a transport error (timeout, unreachable backend), sendMessage
crashes on the nil response before the handler reaches its redirect; only
the non-201 case and the absent-field case behave as claimed. -/
theorem sendHandler_crash_on_net_error :
    handlerSendMessage "user1" (FormParse.parsed [("message", "hello")]) PostCallResult.netError
        = SendHandlerOutcome.crashed
      ∧ handlerSendMessage "user1" (FormParse.parsed [("message", "hello")])
            (PostCallResult.response 500)
          = SendHandlerOutcome.redirectedToIndex (some ⟨"user1", "hello", zeroGoTime⟩)
      ∧ handlerSendMessage "user1" (FormParse.parsed [("other", "x")])
            (PostCallResult.response 201)
          = SendHandlerOutcome.redirectedToIndex (some ⟨"user1", "", zeroGoTime⟩) := by
  refine ⟨by decide, by decide, by decide⟩

/-! ## The heartbeat body (both variants) -/

/-- The body handed to json.Marshal in sendPing, first variant (line 196):
Ping composite literal with Username set to envVarUserName and TimeSent
left at the time.Time zero value. -/
def sendPingBody (userName : String) : Ping :=
  { username := userName, timeSent := zeroGoTime }

/-- The body handed to json.Marshal in sendPing, second variant (line 454):
the username is the literal "Alice" regardless of the configured identity,
and TimeSent is left at the time.Time zero value. -/
def sendPingBodyV2 : Ping :=
  { username := "Alice", timeSent := zeroGoTime }

/-- Outcome of sendPing, first variant: crash on the nil response after a
transport error, or a normal return after posting the body. -/
inductive SendPingOutcome where
  | crashed
  | completed (posted : Ping)
deriving DecidableEq, Repr

/-- sendPing, first variant (lines 194-208): posts the ping body once; a
transport error is logged and then the deferred close dereferences the nil
response; a non-201 status is only logged. -/
def sendPing (userName : String) : PostCallResult → SendPingOutcome
  | .netError => .crashed
  | .response _ => .completed (sendPingBody userName)

/-- C6: the code contradicts the claim. The first variant sends the
configured identity but a zero timestamp; the second variant hardcodes the
username "Alice" (differing from the configured identity, here "user1" as
in the Makefile run target) and also sends a zero timestamp. -/
theorem sendPing_body_defects :
    (sendPingBody "user1").username = "user1"
      ∧ (sendPingBody "user1").timeSent = zeroGoTime
      ∧ sendPingBodyV2.username = "Alice"
      ∧ sendPingBodyV2.username ≠ "user1"
      ∧ sendPingBodyV2.timeSent = zeroGoTime := by
  refine ⟨rfl, rfl, rfl, by decide, rfl⟩

/-! ## Configuration loading (readConfig, both variants)

The file system and JSON layer are abstracted into the result of reading
and unmarshalling the file. In the parsed case the carried ChatConfig holds
the Go struct after json.Unmarshal with absent JSON fields at their Go zero
values; for the first variant the struct is pre-filled with the defaults
before unmarshalling, but a field that is absent (keeps the default) and a
field explicitly zero (zeroed then re-defaulted by the if statements) end
in the same place, so the net function of both variants factors through
this representation. -/

/-- Result of reading and unmarshalling the config file. -/
inductive ConfigReadResult where
  | readFailed
  | parseFailed
  | parsed (c : ChatConfig)
deriving DecidableEq, Repr

/-- Outcome of readConfig: a fatal log that aborts the process, a nil
pointer returned to the caller, or a config value. -/
inductive ConfigOutcome where
  | fatalExit
  | nilConfig
  | ok (c : ChatConfig)
deriving DecidableEq, Repr

/-- readConfig, first variant (lines 68-98): a read failure is a fatal log
(process abort); a parse failure prints and returns nil; otherwise each
zero or empty field is replaced by its default by three successive if
statements and the result is returned. -/
def readConfig : ConfigReadResult → ConfigOutcome
  | .readFailed => .fatalExit
  | .parseFailed => .nilConfig
  | .parsed c =>
    let c1 := if c.chatServerPort = 0 then { c with chatServerPort := defaultHTTPChatPort } else c
    let c2 :=
      if c1.chatServerFQDN = "" then { c1 with chatServerFQDN := defaultHTTPChatServer } else c1
    let c3 :=
      if c2.webServerPortNumber = 0 then
        { c2 with webServerPortNumber := defaultWebServerPortNumber }
      else c2
    .ok c3

/-- readConfig, second variant (lines 331-357): same shape, starting from a
zero-valued struct; a read failure is log.Fatalf (process abort), a parse
failure prints and returns nil, then the same three if statements apply the
per-field defaults. -/
def readConfigV2 : ConfigReadResult → ConfigOutcome
  | .readFailed => .fatalExit
  | .parseFailed => .nilConfig
  | .parsed c =>
    let c1 := if c.chatServerPort = 0 then { c with chatServerPort := defaultHTTPChatPort } else c
    let c2 :=
      if c1.chatServerFQDN = "" then { c1 with chatServerFQDN := defaultHTTPChatServer } else c1
    let c3 :=
      if c2.webServerPortNumber = 0 then
        { c2 with webServerPortNumber := defaultWebServerPortNumber }
      else c2
    .ok c3

/-- The all-defaults config value. -/
def defaultChatConfig : ChatConfig :=
  ⟨defaultHTTPChatServer, defaultHTTPChatPort, defaultWebServerPortNumber⟩

/-- C5 counterexample: an unreadable config file does not yield the default
config — it aborts the process — and an unparsable one yields a nil
config, not the defaults. -/
theorem readConfig_failure_counterexample :
    readConfig ConfigReadResult.readFailed = ConfigOutcome.fatalExit
      ∧ readConfig ConfigReadResult.readFailed ≠ ConfigOutcome.ok defaultChatConfig
      ∧ readConfig ConfigReadResult.parseFailed ≠ ConfigOutcome.ok defaultChatConfig := by
  refine ⟨rfl, by decide, by decide⟩

/-- C5 amended: in both cited variants a config file that cannot be read
aborts the process with a fatal log, and a file that reads but cannot be
parsed yields a nil config; the built-in defaults are not installed on
either failure path. -/
theorem readConfig_failure_behavior :
    readConfig ConfigReadResult.readFailed = ConfigOutcome.fatalExit
      ∧ readConfig ConfigReadResult.parseFailed = ConfigOutcome.nilConfig
      ∧ readConfigV2 ConfigReadResult.readFailed = ConfigOutcome.fatalExit
      ∧ readConfigV2 ConfigReadResult.parseFailed = ConfigOutcome.nilConfig :=
  ⟨rfl, rfl, rfl, rfl⟩

/-- C8: when the file parses, every zero numeric field and every empty
string field receives its documented default while set fields are kept; in
particular a file containing only the remote port 9090 yields the default
host, port 9090 and the default local port. -/
theorem readConfig_field_defaults (c : ChatConfig) :
    readConfig (ConfigReadResult.parsed c)
        = ConfigOutcome.ok
            { chatServerFQDN :=
                if c.chatServerFQDN = "" then defaultHTTPChatServer else c.chatServerFQDN,
              chatServerPort :=
                if c.chatServerPort = 0 then defaultHTTPChatPort else c.chatServerPort,
              webServerPortNumber :=
                if c.webServerPortNumber = 0 then defaultWebServerPortNumber
                else c.webServerPortNumber }
      ∧ readConfig (ConfigReadResult.parsed ⟨"", 9090, 0⟩)
          = ConfigOutcome.ok ⟨"chat.server.net", 9090, 99⟩ := by
  constructor
  · simp only [readConfig]
    by_cases h1 : c.chatServerPort = 0 <;> by_cases h2 : c.chatServerFQDN = "" <;>
      by_cases h3 : c.webServerPortNumber = 0 <;> simp [h1, h2, h3]
  · decide

/-! ## Fetching active users (first variant, getActiveUsers, lines 210-227) -/

/-- Result of the JSON decode of a GET /users response body. -/
inductive UsersDecodeResult where
  | ok (users : List User)
  | decodeFailed (sofar : List User)
deriving DecidableEq, Repr

/-- Result of the GET /users call. -/
inductive GetUsersCallResult where
  | netError
  | response (statusCode : Nat) (body : UsersDecodeResult)
deriving DecidableEq, Repr

/-- Outcome of getActiveUsers. -/
inductive GetUsersOutcome where
  | crashed
  | returned (users : List User)
deriving DecidableEq, Repr

/-- getActiveUsers, first variant: same shape as getMessages — a transport
error is logged and then the deferred close dereferences the nil response;
a non-200 status is only logged; the decoded slice is returned. -/
def getActiveUsers : GetUsersCallResult → GetUsersOutcome
  | .netError => .crashed
  | .response _ (.ok users) => .returned users
  | .response _ (.decodeFailed sofar) => .returned sofar

/-! ## Index page (first variant, handlerIndex, lines 139-154) -/

/-- The static HTML written by handlerIndex: two iframes pointing at the
messages and users endpoints and the send-message form. -/
def handlerIndexContent : String :=
  "<!doctype html><html itemscope=\"\" itemtype=\"http://schema.org/WebPage\" lang=\"en\">\n\t<head><title>smirc is awesome</title></head><body>\n      <table><tr><td>\n      <iframe marginwidth=\"0\" marginheight=\"0\" width=\"480\" height=\"640\" scrolling=\"yes\" frameborder=0 src=\""
    ++ endPointGetMessages
    ++ "\">\n      </iframe>\n      </td><td>\n      <iframe marginwidth=\"0\" marginheight=\"0\" width=\"480\" height=\"640\" scrolling=\"yes\" frameborder=0 src=\""
    ++ endPointGetUsers
    ++ "\">\n      </iframe>\n      </td></tr></table>\n      <form action=\""
    ++ endPointSendMessage
    ++ "\">\n        <input type=\"text\" id=\"" ++ formKeyMessage ++ "\" name=\""
    ++ formKeyMessage
    ++ "\" />\n        <input type=\"submit\" value=\"Send\" />\n      </form></body></html>"

/-! ## Shared state after startup (first variant)

After main has validated the environment and assigned cfg, the process
state consists of the shared config, the identity read from the
environment, and the trace of observable events the handlers and the
heartbeat loop produce. Each handler invocation and each heartbeat tick is
a step function on this state; the steps mirror the Go code, which reads
cfg (to build the backend URLs) and the identity (to build the posted
bodies) but assigns neither. -/

/-- URL built in sendMessage and getMessages. -/
def messagesURL (cfg : ChatConfig) : String :=
  "http://" ++ cfg.chatServerFQDN ++ ":" ++ toString cfg.chatServerPort ++ "/messages"

/-- URL built in sendPing. -/
def pingURL (cfg : ChatConfig) : String :=
  "http://" ++ cfg.chatServerFQDN ++ ":" ++ toString cfg.chatServerPort ++ "/ping"

/-- URL built in getActiveUsers. -/
def usersURL (cfg : ChatConfig) : String :=
  "http://" ++ cfg.chatServerFQDN ++ ":" ++ toString cfg.chatServerPort ++ "/users"

/-- Observable events produced by the handlers and the heartbeat loop. -/
inductive Event where
  | fetched (url : String)
  | wroteHTML (body : String)
  | postedMessage (url : String) (body : Message)
  | postedPing (url : String) (body : Ping)
  | redirected (location : String)
  | crashed
deriving DecidableEq, Repr

/-- Process state after startup: the shared config, the identity from the
environment, and the event trace. -/
structure ClientState where
  cfg : ChatConfig
  envVarUserName : String
  trace : List Event
deriving Repr

/-- One invocation of handlerIndex: writes the static page. -/
def stepHandlerIndex (s : ClientState) : ClientState :=
  { s with trace := s.trace ++ [Event.wroteHTML handlerIndexContent] }

/-- One invocation of handlerGetMessages: a GET against the messages URL
built from the shared config, then either the rendered page is written or
the crash of getMessages propagates. -/
def stepHandlerGetMessages (s : ClientState) (net : GetMsgsCallResult) : ClientState :=
  match getMessages net with
  | .returned msgs =>
    { s with trace := s.trace
        ++ [Event.fetched (messagesURL s.cfg), Event.wroteHTML (handlerGetMessages msgs)] }
  | .crashed =>
    { s with trace := s.trace ++ [Event.fetched (messagesURL s.cfg), Event.crashed] }

/-- One invocation of handlerGetUsers. -/
def stepHandlerGetUsers (s : ClientState) (net : GetUsersCallResult) : ClientState :=
  match getActiveUsers net with
  | .returned users =>
    { s with trace := s.trace
        ++ [Event.fetched (usersURL s.cfg), Event.wroteHTML (handlerGetUsers users)] }
  | .crashed =>
    { s with trace := s.trace ++ [Event.fetched (usersURL s.cfg), Event.crashed] }

/-- One invocation of handlerSendMessage: the posted body is built from the
shared identity and posted to the messages URL built from the shared
config. -/
def stepHandlerSendMessage (s : ClientState) (form : FormParse) (net : PostCallResult) :
    ClientState :=
  match handlerSendMessage s.envVarUserName form net with
  | .crashed =>
    { s with trace := s.trace ++ [Event.crashed] }
  | .redirectedToIndex none =>
    { s with trace := s.trace ++ [Event.redirected "/"] }
  | .redirectedToIndex (some m) =>
    { s with trace := s.trace
        ++ [Event.postedMessage (messagesURL s.cfg) m, Event.redirected "/"] }

/-- One tick of the heartbeat loop: sendPing posts the ping body built from
the shared identity to the ping URL built from the shared config. -/
def stepPingTick (s : ClientState) (net : PostCallResult) : ClientState :=
  match sendPing s.envVarUserName net with
  | .completed p =>
    { s with trace := s.trace ++ [Event.postedPing (pingURL s.cfg) p] }
  | .crashed =>
    { s with trace := s.trace
        ++ [Event.postedPing (pingURL s.cfg) (sendPingBody s.envVarUserName), Event.crashed] }

/-- C9: after startup, no handler invocation and no heartbeat tick writes
the shared config or the local identity — every step function preserves
both fields for every starting state and every network or form input. -/
theorem config_and_identity_read_only (s : ClientState) (netM : GetMsgsCallResult)
    (netU : GetUsersCallResult) (netP netS : PostCallResult) (form : FormParse) :
    ((stepHandlerIndex s).cfg = s.cfg ∧ (stepHandlerIndex s).envVarUserName = s.envVarUserName)
      ∧ ((stepHandlerGetMessages s netM).cfg = s.cfg
          ∧ (stepHandlerGetMessages s netM).envVarUserName = s.envVarUserName)
      ∧ ((stepHandlerGetUsers s netU).cfg = s.cfg
          ∧ (stepHandlerGetUsers s netU).envVarUserName = s.envVarUserName)
      ∧ ((stepHandlerSendMessage s form netS).cfg = s.cfg
          ∧ (stepHandlerSendMessage s form netS).envVarUserName = s.envVarUserName)
      ∧ ((stepPingTick s netP).cfg = s.cfg
          ∧ (stepPingTick s netP).envVarUserName = s.envVarUserName) := by
  refine ⟨⟨rfl, rfl⟩, ?_, ?_, ?_, ?_⟩
  · cases h : getMessages netM <;> simp [stepHandlerGetMessages, h]
  · cases h : getActiveUsers netU <;> simp [stepHandlerGetUsers, h]
  · cases h : handlerSendMessage s.envVarUserName form netS with
    | redirectedToIndex p => cases p <;> simp [stepHandlerSendMessage, h]
    | crashed => simp [stepHandlerSendMessage, h]
  · cases h : sendPing s.envVarUserName netP <;> simp [stepPingTick, h]

end HttpChat
